import Mathlib

/-!
Verification of the MottaHunter email-reconnaissance core.

This file gives a shallow embedding, in Lean 4, of the parts of the
MottaHunter repository that carry real semantics:

* `_motta_split` from `harvester.py` (partitioning of a candidate list);
* `motta_generate_permutations` from `email_validation.py` (candidate
  generation with first-occurrence de-duplication);
* `motta_validate_email_smtp` from `email_validation.py` (the SMTP probe
  verdict mapping), modelled over an explicit type of SMTP dialog
  outcomes;
* `motta_validate_info_address` and `motta_validate_email_permutations`
  from `email_validation.py` (the per-run scheduler: MX gate, the
  info-address / catch-all checks, and the per-candidate probe loop),
  modelled as a trace-producing interpreter over an environment that
  fixes the MX-resolution outcome and the verdict of each SMTP probe.

Python machine behaviour is made explicit: an exception that a function
propagates is modelled with `Option`/`Except`, `print`-level observable
outputs become `Event`s in a trace, and the non-deterministic outside
world (DNS answers, SMTP server replies, the random catch-all tag) is
an explicit `Env` parameter, universally quantified in the theorems.
-/

/-! ## Partitioning (`harvester.py`, `MottaHunter._motta_split`) -/

/-- Model of `MottaHunter._motta_split` from `harvester.py`.

```
if not 1 <= selected_part <= total_parts:
    raise ValueError(f"Part must be between 1 and {total_parts}")
part_size = len(permutations) // total_parts
remainder = len(permutations) % total_parts
start_idx = (selected_part - 1) * part_size + min(selected_part - 1, remainder)
end_idx = start_idx + part_size + (1 if selected_part <= remainder else 0)
return permutations[start_idx:end_idx]
```

The `raise ValueError` is modelled with `Except.error`.  `total_parts`
and `selected_part` are arbitrary Python integers, so they are taken as
`Int`; after the bounds check both are positive and the remaining
arithmetic happens on natural numbers, where Python's floor division
and modulo on non-negative operands agree with `Nat` division and
modulo.  The slice `permutations[start_idx:end_idx]` (with
`0 ≤ start_idx ≤ end_idx`) is `drop start_idx` followed by
`take (end_idx - start_idx)`. -/
def motta_split (permutations : List String) (totalParts selectedPart : Int) :
    Except String (List String) :=
  if 1 ≤ selectedPart ∧ selectedPart ≤ totalParts then
    let n := permutations.length
    let tp := totalParts.toNat
    let k := selectedPart.toNat
    let partSize := n / tp
    let remainder := n % tp
    let startIdx := (k - 1) * partSize + min (k - 1) remainder
    let endIdx := startIdx + partSize + (if k ≤ remainder then 1 else 0)
    Except.ok ((permutations.drop startIdx).take (endIdx - startIdx))
  else
    Except.error ("Part must be between 1 and " ++ toString totalParts)

/-- The start offset of the 1-based part `k + 1` (equivalently: the total
size of the first `k` parts) when a list of length `n` is divided into
`tp` balanced contiguous parts. -/
def sliceBoundary (n tp k : Nat) : Nat :=
  k * (n / tp) + min k (n % tp)

/-- The size of the 1-based part `k`: `n / tp`, plus one for the first
`n % tp` parts. -/
def sliceSize (n tp k : Nat) : Nat :=
  n / tp + (if k ≤ n % tp then 1 else 0)

/-- The contiguous slice assigned to 1-based part `k`. -/
def sliceOf (perms : List String) (tp k : Nat) : List String :=
  (perms.drop (sliceBoundary perms.length tp (k - 1))).take (sliceSize perms.length tp k)

theorem sliceBoundary_zero (n tp : Nat) : sliceBoundary n tp 0 = 0 := by
  simp [sliceBoundary]

theorem sliceBoundary_succ (n tp k : Nat) :
    sliceBoundary n tp (k + 1) = sliceBoundary n tp k + sliceSize n tp (k + 1) := by
  unfold sliceBoundary sliceSize
  rcases Nat.lt_or_ge k (n % tp) with h | h
  · rw [min_eq_left (by omega), min_eq_left (by omega), if_pos (by omega), Nat.succ_mul]
    omega
  · rw [min_eq_right (by omega), min_eq_right (by omega), if_neg (by omega), Nat.succ_mul]
    omega

theorem sliceBoundary_last (n tp : Nat) (h : 1 ≤ tp) : sliceBoundary n tp tp = n := by
  have h2 : n % tp < tp := Nat.mod_lt n (by omega)
  unfold sliceBoundary
  rw [min_eq_right (by omega)]
  exact Nat.div_add_mod n tp

theorem sliceBoundary_mono (n tp : Nat) {j k : Nat} (h : j ≤ k) :
    sliceBoundary n tp j ≤ sliceBoundary n tp k := by
  unfold sliceBoundary
  have h1 : j * (n / tp) ≤ k * (n / tp) := Nat.mul_le_mul_right _ h
  omega

theorem slices_flatten_aux (perms : List String) (tp : Nat) :
    ∀ m, ((List.range m).map fun i => sliceOf perms tp (i + 1)).flatten
      = perms.take (sliceBoundary perms.length tp m) := by
  intro m
  induction m with
  | zero => simp [sliceBoundary]
  | succ m ih =>
    rw [List.range_succ, List.map_append, List.flatten_append]
    simp only [List.map_cons, List.map_nil, List.flatten_cons, List.flatten_nil,
      List.append_nil]
    rw [ih, sliceBoundary_succ, List.take_add, sliceOf, Nat.add_sub_cancel]

theorem slices_flatten (perms : List String) (tp : Nat) (h : 1 ≤ tp) :
    ((List.range tp).map fun i => sliceOf perms tp (i + 1)).flatten = perms := by
  rw [slices_flatten_aux, sliceBoundary_last _ _ h, List.take_length]

theorem sliceOf_length (perms : List String) (tp k : Nat)
    (h1 : 1 ≤ tp) (h2 : 1 ≤ k) (h3 : k ≤ tp) :
    (sliceOf perms tp k).length = sliceSize perms.length tp k := by
  unfold sliceOf
  rw [List.length_take, List.length_drop]
  have h4 : sliceBoundary perms.length tp k ≤ perms.length :=
    le_trans (sliceBoundary_mono _ _ h3) (le_of_eq (sliceBoundary_last _ _ h1))
  have h5 := sliceBoundary_succ perms.length tp (k - 1)
  have h6 : k - 1 + 1 = k := Nat.sub_add_cancel h2
  rw [h6] at h5
  omega

theorem natAddAddSubCancel (a b c : Nat) : a + b + c - a = b + c := by omega

theorem motta_split_ok (perms : List String) (totalParts selectedPart : Int)
    (h2 : 1 ≤ selectedPart) (h3 : selectedPart ≤ totalParts) :
    motta_split perms totalParts selectedPart
      = Except.ok (sliceOf perms totalParts.toNat selectedPart.toNat) := by
  unfold motta_split sliceOf sliceBoundary sliceSize
  rw [if_pos ⟨h2, h3⟩]
  dsimp only
  congr 2
  exact natAddAddSubCancel _ _ _

/-- C1: for every candidate list, every `total_parts ≥ 1` and every
`selected_part` with `1 ≤ selected_part ≤ total_parts`, `_motta_split`
returns (it does not raise) the contiguous slice of the input that
starts at the partition boundary of part `selected_part`; that slice
has size `N / total_parts`, plus one extra element exactly when
`selected_part ≤ N % total_parts`; and the concatenation of the slices
of parts `1 .. total_parts`, in part order, is the original list, so
the slices are pairwise disjoint occurrences covering the input exactly
once, in original order. -/
theorem C1_motta_split_balanced_partition (perms : List String)
    (totalParts selectedPart : Int)
    (h1 : 1 ≤ totalParts) (h2 : 1 ≤ selectedPart) (h3 : selectedPart ≤ totalParts) :
    motta_split perms totalParts selectedPart
        = Except.ok (sliceOf perms totalParts.toNat selectedPart.toNat)
      ∧ (sliceOf perms totalParts.toNat selectedPart.toNat).length
          = perms.length / totalParts.toNat
            + (if selectedPart.toNat ≤ perms.length % totalParts.toNat then 1 else 0)
      ∧ ((List.range totalParts.toNat).map
          fun i => sliceOf perms totalParts.toNat (i + 1)).flatten = perms := by
  refine ⟨motta_split_ok perms totalParts selectedPart h2 h3, ?_, ?_⟩
  · exact sliceOf_length perms totalParts.toNat selectedPart.toNat
      (by omega) (by omega) (by omega)
  · exact slices_flatten perms totalParts.toNat (by omega)

/-- The ten-element list used by `tests.py` for the splitting test. -/
def demoEmails : List String :=
  ["email1@test.com", "email2@test.com", "email3@test.com", "email4@test.com",
   "email5@test.com", "email6@test.com", "email7@test.com", "email8@test.com",
   "email9@test.com", "email10@test.com"]

/-- Witness for C1 at the concrete input of `tests.py`: ten candidates
split into four parts, part 2. -/
theorem C1_motta_split_balanced_partition_witness :
    ((1 : Int) ≤ 4 ∧ (1 : Int) ≤ 2 ∧ (2 : Int) ≤ 4)
      ∧ (motta_split demoEmails 4 2 = Except.ok (sliceOf demoEmails 4 2)
        ∧ (sliceOf demoEmails 4 2).length
            = demoEmails.length / 4 + (if 2 ≤ demoEmails.length % 4 then 1 else 0)
        ∧ ((List.range 4).map fun i => sliceOf demoEmails 4 (i + 1)).flatten
            = demoEmails) :=
  ⟨⟨by decide, by decide, by decide⟩,
    C1_motta_split_balanced_partition demoEmails 4 2 (by decide) (by decide) (by decide)⟩

/-- C6: for every candidate list and every `total_parts`, calling
`_motta_split` with `selected_part` outside `[1, total_parts]` raises
(`Except.error`, modelling the `ValueError`) before returning any
slice. -/
theorem C6_motta_split_invalid_part (perms : List String)
    (totalParts selectedPart : Int)
    (h : selectedPart < 1 ∨ totalParts < selectedPart) :
    motta_split perms totalParts selectedPart
      = Except.error ("Part must be between 1 and " ++ toString totalParts) := by
  unfold motta_split
  rw [if_neg (by omega)]

/-- Witness for C6 at the concrete input of `tests.py`:
`selected_part = 4` with `total_parts = 3` fails. -/
theorem C6_motta_split_invalid_part_witness :
    ((4 : Int) < 1 ∨ (3 : Int) < 4)
      ∧ motta_split ["email1@test.com", "email2@test.com"] 3 4
          = Except.error ("Part must be between 1 and " ++ toString (3 : Int)) :=
  ⟨Or.inr (by decide),
    C6_motta_split_invalid_part ["email1@test.com", "email2@test.com"] 3 4
      (Or.inr (by decide))⟩

/-! ## The SMTP probe (`email_validation.py`, `motta_validate_email_smtp`)

The function opens one SMTP session:

```
try:
    with smtplib.SMTP(mx_server, 25, timeout=10) as smtp:
        smtp.helo("mottasec.com")
        smtp.mail(sender_email)
        response = smtp.rcpt(email)
        return response[0] == 250
except Exception:
    return False
```

An execution of the `try` block is determined by the outcome of the four
dialog steps: connecting (the `smtplib.SMTP` constructor, which raises on
connection failure or a non-220 greeting), HELO, MAIL FROM and RCPT TO.
`smtplib.SMTP.helo`, `.mail` and `.rcpt` return the server's reply
`(code, message)` without raising on a non-2xx code; they raise only on
transport-level failures (disconnect, unparsable reply).  `SMTPDialog`
enumerates the possible outcomes: which step, if any, raised, and the
reply codes actually delivered up to that point. -/

/-- One SMTP session's observable outcome: either some step raised an
exception (recording the reply codes received before it), or all four
steps completed with the recorded reply codes. -/
inductive SMTPDialog where
  | connectExn
  | heloExn
  | mailExn (heloCode : Nat)
  | rcptExn (heloCode mailCode : Nat)
  | complete (heloCode mailCode rcptCode : Nat)
deriving DecidableEq

/-- Model of `motta_validate_email_smtp` from `email_validation.py`: any exception
at any step is folded into `false`; an exception-free session is accepted
iff the RCPT TO reply code is exactly 250.  The reply codes of HELO and
MAIL FROM are returned by `smtplib` but never inspected by the code. -/
def motta_validate_email_smtp : SMTPDialog → Bool
  | SMTPDialog.complete _ _ rcptCode => rcptCode == 250
  | _ => false

/-- The reply codes the server delivered during the dialog, in step
order (codes of steps that raised instead of replying are absent). -/
def dialogReplyCodes : SMTPDialog → List Nat
  | SMTPDialog.connectExn => []
  | SMTPDialog.heloExn => []
  | SMTPDialog.mailExn h => [h]
  | SMTPDialog.rcptExn h m => [h, m]
  | SMTPDialog.complete h m r => [h, m, r]

/-- Whether some step of the dialog raised an exception. -/
def dialogRaised : SMTPDialog → Bool
  | SMTPDialog.complete _ _ _ => false
  | _ => true

/-- C2 counterexample: the claim states that any reply code other than
250 at any dialog step yields `false`; but a session whose HELO reply is
554 while MAIL FROM and RCPT TO reply 250 returns `true`, because
`smtplib.helo` does not raise on a non-250 reply and the code never
inspects the HELO reply code. -/
theorem C2_counterexample_helo_code_ignored :
    motta_validate_email_smtp (SMTPDialog.complete 554 250 250) = true
      ∧ 554 ∈ dialogReplyCodes (SMTPDialog.complete 554 250 250)
      ∧ (554 : Nat) ≠ 250 := by
  decide

/-- C2 (amended): the probe is a total function into `Bool` (so every
dialog outcome maps to exactly one of the two values and no exception
propagates); it returns `true` iff the session completed connect, HELO,
MAIL FROM and RCPT TO without an exception and the RCPT TO reply code is
exactly 250; any exception at any step yields `false`.  Reply codes of
the intermediate steps do not affect the verdict. -/
theorem C2_probe_verdict_mapping (d : SMTPDialog) :
    (motta_validate_email_smtp d = true
        ↔ ∃ heloCode mailCode, d = SMTPDialog.complete heloCode mailCode 250)
      ∧ (dialogRaised d = true → motta_validate_email_smtp d = false) := by
  cases d <;> simp [motta_validate_email_smtp, dialogRaised]

/-- Witness for C2 at a concrete input: an exception during HELO maps to
`false`. -/
theorem C2_probe_verdict_mapping_witness :
    dialogRaised SMTPDialog.heloExn = true
      ∧ motta_validate_email_smtp SMTPDialog.heloExn = false :=
  ⟨rfl, (C2_probe_verdict_mapping SMTPDialog.heloExn).2 rfl⟩

/-! ## Candidate generation (`email_validation.py`, `motta_generate_permutations`) -/

/-- Python's `str.lower()` on the ASCII strings this tool manipulates:
lowercase every character. -/
def pyLower (s : String) : String :=
  String.mk (s.data.map Char.toLower)

/-- Python's `s[0].lower()`: the first character, lowercased, as a
one-character string.  Only evaluated by the source under a non-empty
guard (an empty `s` raises `IndexError`, handled at the call sites
below). -/
def pyFirstLower (s : String) : String :=
  String.singleton s.front.toLower

/-- The level-1 ("basic") patterns, lines 48-55 of `email_validation.py`,
in source order. -/
def levelOneList (firstName lastName domain : String) : List String :=
  [pyLower firstName ++ pyLower lastName ++ "@" ++ domain,
   pyLower firstName ++ "." ++ pyLower lastName ++ "@" ++ domain,
   pyFirstLower firstName ++ pyLower lastName ++ "@" ++ domain,
   pyFirstLower firstName ++ "." ++ pyLower lastName ++ "@" ++ domain,
   pyFirstLower firstName ++ "_" ++ pyLower lastName ++ "@" ++ domain,
   pyLower firstName ++ "-" ++ pyLower lastName ++ "@" ++ domain]

/-- The additional level-2 ("medium") patterns, lines 59-66, in source
order. -/
def levelTwoExtra (firstName lastName domain : String) : List String :=
  [pyLower firstName ++ "@" ++ domain,
   pyLower lastName ++ "@" ++ domain,
   pyLower firstName ++ "_" ++ pyLower lastName ++ "@" ++ domain,
   pyLower lastName ++ "." ++ pyLower firstName ++ "@" ++ domain,
   pyLower lastName ++ "_" ++ pyLower firstName ++ "@" ++ domain,
   pyLower lastName ++ pyLower firstName ++ "@" ++ domain]

/-- The additional level-3 ("heavy") patterns, lines 70-77, in source
order.  These are the only patterns that index `last_name[0]`. -/
def levelThreeExtra (firstName lastName domain : String) : List String :=
  [pyFirstLower firstName ++ pyLower (lastName.take 3) ++ "@" ++ domain,
   pyFirstLower firstName ++ "." ++ pyLower (lastName.take 3) ++ "@" ++ domain,
   pyLower (firstName.take 3) ++ pyFirstLower lastName ++ "@" ++ domain,
   pyLower (lastName.take 3) ++ pyFirstLower firstName ++ "@" ++ domain,
   pyLower firstName ++ pyFirstLower lastName ++ "@" ++ domain,
   pyLower lastName ++ pyFirstLower firstName ++ "@" ++ domain]

/-- Python's `list(dict.fromkeys(l))`: remove duplicates, keeping the
first occurrence of each element, preserving order.  `seen` accumulates
the elements already emitted. -/
def dedupKeepFirst (seen : List String) : List String → List String
  | [] => []
  | x :: xs =>
      if x ∈ seen then dedupKeepFirst seen xs
      else x :: dedupKeepFirst (x :: seen) xs

/-- Model of `motta_generate_permutations` from `email_validation.py`.

The Python builds the level-1 list unconditionally (evaluating
`first_name[0]`, which raises `IndexError` on an empty first name, before
any level test), extends it when `level >= 2` and again when
`level >= 3` (the second extension evaluates `last_name[0]`), and
returns `list(dict.fromkeys(permutations))`.  A propagated `IndexError`
is modelled with `none`. -/
def motta_generate_permutations (firstName lastName domain : String) (level : Nat) :
    Option (List String) :=
  let d := pyLower domain
  if firstName.isEmpty then none
  else
    let perms := levelOneList firstName lastName d
      ++ (if 2 ≤ level then levelTwoExtra firstName lastName d else [])
    if 3 ≤ level then
      if lastName.isEmpty then none
      else some (dedupKeepFirst [] (perms ++ levelThreeExtra firstName lastName d))
    else some (dedupKeepFirst [] perms)

theorem mem_dedupKeepFirst {x : String} :
    ∀ (l seen : List String), x ∈ dedupKeepFirst seen l → x ∈ l ∧ x ∉ seen := by
  intro l
  induction l with
  | nil => intro seen h; simp [dedupKeepFirst] at h
  | cons a rest ih =>
    intro seen h
    unfold dedupKeepFirst at h
    by_cases ha : a ∈ seen
    · rw [if_pos ha] at h
      have h2 := ih seen h
      exact ⟨List.mem_cons_of_mem _ h2.1, h2.2⟩
    · rw [if_neg ha] at h
      rcases List.mem_cons.mp h with h1 | h1
      · subst h1
        exact ⟨List.mem_cons_self _ _, ha⟩
      · have h2 := ih (a :: seen) h1
        exact ⟨List.mem_cons_of_mem _ h2.1,
          fun hx => h2.2 (List.mem_cons_of_mem _ hx)⟩

theorem nodup_dedupKeepFirst : ∀ (l seen : List String), (dedupKeepFirst seen l).Nodup := by
  intro l
  induction l with
  | nil => intro seen; simp [dedupKeepFirst]
  | cons a rest ih =>
    intro seen
    unfold dedupKeepFirst
    by_cases ha : a ∈ seen
    · rw [if_pos ha]; exact ih seen
    · rw [if_neg ha]
      refine List.nodup_cons.mpr ⟨?_, ih (a :: seen)⟩
      intro hmem
      exact (mem_dedupKeepFirst rest (a :: seen) hmem).2 (List.mem_cons_self _ _)

/-- First-occurrence de-duplication of a longer list extends that of a
shorter one: the output on `l1` is an initial segment of the output on
`l1 ++ l2`. -/
theorem dedupKeepFirst_append (l1 : List String) :
    ∀ (l2 seen : List String),
      ∃ t, dedupKeepFirst seen l1 ++ t = dedupKeepFirst seen (l1 ++ l2) := by
  induction l1 with
  | nil => intro l2 seen; exact ⟨dedupKeepFirst seen l2, rfl⟩
  | cons a rest ih =>
    intro l2 seen
    simp only [List.cons_append]
    unfold dedupKeepFirst
    by_cases ha : a ∈ seen
    · rw [if_pos ha, if_pos ha]
      exact ih l2 seen
    · rw [if_neg ha, if_neg ha]
      obtain ⟨t, ht⟩ := ih l2 (a :: seen)
      exact ⟨t, by rw [List.cons_append, ht]⟩

/-- C9: for every non-empty first name, non-empty last name and domain,
the generator succeeds at levels 1, 2 and 3; each output is pairwise
distinct (duplicates removed keeping first occurrences); and the output
is monotone in the level: the level-1 list is an initial segment (a
list-prefix, hence a sub-multiset) of the level-2 list, which is an
initial segment of the level-3 list. -/
theorem C9_permutation_levels_monotone (firstName lastName domain : String)
    (h1 : firstName.isEmpty = false) (h2 : lastName.isEmpty = false) :
    ∃ l1 l2 l3,
      motta_generate_permutations firstName lastName domain 1 = some l1
        ∧ motta_generate_permutations firstName lastName domain 2 = some l2
        ∧ motta_generate_permutations firstName lastName domain 3 = some l3
        ∧ l1.Nodup ∧ l2.Nodup ∧ l3.Nodup
        ∧ (∃ t, l1 ++ t = l2) ∧ (∃ t, l2 ++ t = l3) := by
  refine ⟨dedupKeepFirst []
      (levelOneList firstName lastName (pyLower domain)),
    dedupKeepFirst []
      (levelOneList firstName lastName (pyLower domain)
        ++ levelTwoExtra firstName lastName (pyLower domain)),
    dedupKeepFirst []
      ((levelOneList firstName lastName (pyLower domain)
        ++ levelTwoExtra firstName lastName (pyLower domain))
        ++ levelThreeExtra firstName lastName (pyLower domain)),
    ?_, ?_, ?_, nodup_dedupKeepFirst _ _, nodup_dedupKeepFirst _ _,
    nodup_dedupKeepFirst _ _, ?_, ?_⟩
  · simp [motta_generate_permutations, h1]
  · simp [motta_generate_permutations, h1]
  · simp [motta_generate_permutations, h1, h2]
  · exact dedupKeepFirst_append _ _ _
  · exact dedupKeepFirst_append _ _ _

/-- Witness for C9 at the concrete input of `tests.py`
(`John`, `Doe`, `example.com`). -/
theorem C9_permutation_levels_monotone_witness :
    ("John".isEmpty = false ∧ "Doe".isEmpty = false)
      ∧ (∃ l1 l2 l3,
          motta_generate_permutations "John" "Doe" "example.com" 1 = some l1
            ∧ motta_generate_permutations "John" "Doe" "example.com" 2 = some l2
            ∧ motta_generate_permutations "John" "Doe" "example.com" 3 = some l3
            ∧ l1.Nodup ∧ l2.Nodup ∧ l3.Nodup
            ∧ (∃ t, l1 ++ t = l2) ∧ (∃ t, l2 ++ t = l3)) :=
  ⟨⟨rfl, rfl⟩, C9_permutation_levels_monotone "John" "Doe" "example.com" rfl rfl⟩

/-- C10: the generator has a non-emptiness precondition: an empty first
name makes it raise `IndexError` (modelled `none`) at every level in
{1, 2, 3}, from `first_name[0]` in the always-built level-1 patterns; a
non-empty first name with an empty last name succeeds at levels 1 and 2
but raises `IndexError` at level 3, from `last_name[0]` in the level-3
patterns. -/
theorem C10_empty_name_precondition (firstName lastName domain : String) :
    (motta_generate_permutations "" lastName domain 1 = none
        ∧ motta_generate_permutations "" lastName domain 2 = none
        ∧ motta_generate_permutations "" lastName domain 3 = none)
      ∧ (firstName.isEmpty = false →
          (motta_generate_permutations firstName "" domain 1).isSome = true
            ∧ (motta_generate_permutations firstName "" domain 2).isSome = true
            ∧ motta_generate_permutations firstName "" domain 3 = none) := by
  constructor
  · exact ⟨rfl, rfl, rfl⟩
  · intro h
    refine ⟨?_, ?_, ?_⟩ <;>
      simp [motta_generate_permutations, h, show ("" : String).isEmpty = true from rfl]

/-- Witness for C10 at a concrete input: first name `John`, empty last
name. -/
theorem C10_empty_name_precondition_witness :
    "John".isEmpty = false
      ∧ ((motta_generate_permutations "John" "" "example.com" 1).isSome = true
        ∧ (motta_generate_permutations "John" "" "example.com" 2).isSome = true
        ∧ motta_generate_permutations "John" "" "example.com" 3 = none) :=
  ⟨rfl, (C10_empty_name_precondition "John" "" "example.com").2 rfl⟩

/-! ## The per-run scheduler (`email_validation.py`,
`motta_validate_info_address` and `motta_validate_email_permutations`)

A validation run interacts with the outside world through DNS
resolution, a random tag, and a sequence of SMTP probes.  `Env` fixes
those outcomes for one run:

* `mx` is the result of `dns.resolver.resolve(domain, 'MX')`: `none`
  models a raised DNS exception (timeout, NXDOMAIN, SERVFAIL — caught
  by the function's outer `except`), `some l` models a returned record
  set whose exchanges, in answer order, are `l`;
* `verdict n e` is the boolean verdict of the `n`-th SMTP probe of the
  run (counting from 0) when it probes address `e` — by theorem
  `C2_probe_verdict_mapping` the probe is a total boolean function, so
  a run is fully determined by these verdicts;
* `randomTag` is the ten-character random string drawn by
  `random.choices('abcdefghijklmnopqrstuvwxyz', k=10)`.

The observable behaviour of a run (which probes are executed, in which
order, and which reports are printed) is returned as a list of
`Event`s. -/

/-- Which call site issued an SMTP probe: the `info@domain` (or
override) check, the synthetic-address catch-all check, or the
per-candidate loop. -/
inductive Stage where
  | infoCheck
  | catchAllCheck
  | candidate
deriving DecidableEq

/-- An observable step of one validation run, in order of occurrence. -/
inductive Event where
  | mxFailure
  | noMxRecords
  | probe (stage : Stage) (email : String) (accepted : Bool)
  | catchAllAlert
  | summary (valid total : Nat)
deriving DecidableEq

/-- The outside world of one validation run. -/
structure Env where
  mx : Option (List String)
  verdict : Nat → String → Bool
  randomTag : String

/-- The synthetic never-issued address probed by the catch-all check:
`f"mottasec-{random_string}@{domain}"`. -/
def synthAddr (env : Env) (domain : String) : String :=
  "mottasec-" ++ env.randomTag ++ "@" ++ domain

/-- The address probed by the address-of-record check:
`check_email if check_email else f"info@{domain}"` (an empty override
string is falsy in Python and falls back to `info@domain`). -/
def infoAddr (domain : String) (checkEmail : Option String) : String :=
  match checkEmail with
  | some ce => if ce = "" then "info@" ++ domain else ce
  | none => "info@" ++ domain

/-- Model of `motta_validate_info_address` from `email_validation.py`, lines
137-165: with `no_check` it returns `(True, False)` immediately,
probing nothing; otherwise it probes the address of record (SMTP call
0), then the synthetic random address (SMTP call 1), printing a
catch-all alert when the latter is accepted, and returns
`(result, is_catch_all)`.  The function's own `except` branch is
unreachable because `motta_validate_email_smtp` never raises.  Returns
the events of this phase together with the returned pair. -/
def motta_validate_info_address (env : Env) (domain _senderEmail : String)
    (noCheck : Bool) (checkEmail : Option String) :
    List Event × Bool × Bool :=
  if noCheck then ([], true, false)
  else
    let testEmail := infoAddr domain checkEmail
    let result := env.verdict 0 testEmail
    let randEmail := synthAddr env domain
    let isCatchAll := env.verdict 1 randEmail
    ([Event.probe Stage.infoCheck testEmail result,
      Event.probe Stage.catchAllCheck randEmail isCatchAll]
        ++ (if isCatchAll then [Event.catchAllAlert] else []),
      result, isCatchAll)

/-- The candidate loop of `motta_validate_email_permutations`, lines
201-218: one SMTP probe per candidate, in list order (call numbering
continues from `n`), accumulating the count of accepted candidates for
the final summary.  Returns the emitted events and the final count. -/
def probeLoop (env : Env) : Nat → Nat → List String → List Event × Nat
  | _, validCount, [] => ([], validCount)
  | n, validCount, email :: rest =>
      let isValid := env.verdict n email
      let next := probeLoop env (n + 1) (if isValid then validCount + 1 else validCount) rest
      (Event.probe Stage.candidate email isValid :: next.1, next.2)

/-- Model of `motta_validate_email_permutations` from `email_validation.py`,
lines 167-224: resolve MX (a raised DNS exception is caught by the
outer `except`, printing an error; an empty record set prints a no-MX
alert; both return with no probe executed); otherwise run the
info-address/catch-all phase, return its events alone when
`not info_valid or is_catch_all`, and otherwise probe every candidate
in order and print the summary.  The function always returns `None`;
its observable behaviour is the event trace. -/
def motta_validate_email_permutations (env : Env) (permutations : List String)
    (domain senderEmail : String) (noCheck : Bool) (checkEmail : Option String) :
    List Event :=
  match env.mx with
  | none => [Event.mxFailure]
  | some [] => [Event.noMxRecords]
  | some (_ :: _) =>
      let infoRes := motta_validate_info_address env domain senderEmail noCheck checkEmail
      if !infoRes.2.1 || infoRes.2.2 then infoRes.1
      else
        let startN := if noCheck then 0 else 2
        let loop := probeLoop env startN 0 permutations
        infoRes.1 ++ loop.1 ++ [Event.summary loop.2 permutations.length]

/-- Number of probe events of stage `s` in a trace. -/
def countStage (s : Stage) : List Event → Nat
  | [] => 0
  | Event.probe st _ _ :: rest => (if st = s then 1 else 0) + countStage s rest
  | _ :: rest => countStage s rest

/-- Number of probe events of any stage in a trace. -/
def probeCount : List Event → Nat
  | [] => 0
  | Event.probe _ _ _ :: rest => 1 + probeCount rest
  | _ :: rest => probeCount rest

/-- The per-candidate results emitted by a trace, in emission order. -/
def candidateProbes : List Event → List (String × Bool)
  | [] => []
  | Event.probe Stage.candidate email accepted :: rest =>
      (email, accepted) :: candidateProbes rest
  | _ :: rest => candidateProbes rest

/-- The results the candidate loop must produce when the `n`-th SMTP
call of the run probes the first listed candidate: each candidate paired
with its own probe's verdict, in input order. -/
def expectedResults (env : Env) : Nat → List String → List (String × Bool)
  | _, [] => []
  | n, email :: rest => (email, env.verdict n email) :: expectedResults env (n + 1) rest

/-! ### Trace-shape lemmas -/

theorem countStage_append (s : Stage) :
    ∀ a b : List Event, countStage s (a ++ b) = countStage s a + countStage s b := by
  intro a b
  induction a with
  | nil => simp [countStage]
  | cons e rest ih => cases e <;> simp [countStage, ih] <;> omega

theorem probeCount_append :
    ∀ a b : List Event, probeCount (a ++ b) = probeCount a + probeCount b := by
  intro a b
  induction a with
  | nil => simp [probeCount]
  | cons e rest ih => cases e <;> simp [probeCount, ih] <;> omega

theorem candidateProbes_append :
    ∀ a b : List Event, candidateProbes (a ++ b) = candidateProbes a ++ candidateProbes b := by
  intro a b
  induction a with
  | nil => simp [candidateProbes]
  | cons e rest ih =>
    cases e with
    | probe st email accepted => cases st <;> simp [candidateProbes, ih]
    | _ => simp [candidateProbes, ih]

/-- What the info-address phase emits when the check is not skipped. -/
theorem info_events_eq (env : Env) (dm sd : String) (ce : Option String) :
    (motta_validate_info_address env dm sd false ce).1
      = [Event.probe Stage.infoCheck (infoAddr dm ce) (env.verdict 0 (infoAddr dm ce)),
         Event.probe Stage.catchAllCheck (synthAddr env dm) (env.verdict 1 (synthAddr env dm))]
        ++ (if env.verdict 1 (synthAddr env dm) then [Event.catchAllAlert] else []) := rfl

theorem info_fst_eq (env : Env) (dm sd : String) (ce : Option String) :
    (motta_validate_info_address env dm sd false ce).2.1
      = env.verdict 0 (infoAddr dm ce) := rfl

theorem info_snd_eq (env : Env) (dm sd : String) (ce : Option String) :
    (motta_validate_info_address env dm sd false ce).2.2
      = env.verdict 1 (synthAddr env dm) := rfl

theorem info_noCheck_eq (env : Env) (dm sd : String) (ce : Option String) :
    motta_validate_info_address env dm sd true ce = ([], true, false) := rfl

theorem countStage_candidate_info (env : Env) (dm sd : String) (nc : Bool)
    (ce : Option String) :
    countStage Stage.candidate (motta_validate_info_address env dm sd nc ce).1 = 0 := by
  cases nc
  · rw [info_events_eq]
    cases env.verdict 1 (synthAddr env dm) <;> simp [countStage]
  · rfl

theorem countStage_catchAll_info (env : Env) (dm sd : String) (ce : Option String) :
    countStage Stage.catchAllCheck (motta_validate_info_address env dm sd false ce).1 = 1 := by
  rw [info_events_eq]
  cases env.verdict 1 (synthAddr env dm) <;> simp [countStage]

theorem candidateProbes_info (env : Env) (dm sd : String) (nc : Bool)
    (ce : Option String) :
    candidateProbes (motta_validate_info_address env dm sd nc ce).1 = [] := by
  cases nc
  · rw [info_events_eq]
    cases env.verdict 1 (synthAddr env dm) <;> simp [candidateProbes]
  · rfl

/-- The candidate loop emits exactly one candidate-stage probe event per
input candidate, in input order, carrying that probe's verdict. -/
theorem candidateProbes_loop (env : Env) :
    ∀ (l : List String) (n c : Nat),
      candidateProbes (probeLoop env n c l).1 = expectedResults env n l := by
  intro l
  induction l with
  | nil => intro n c; rfl
  | cons e rest ih =>
    intro n c
    simp [probeLoop, expectedResults, candidateProbes, ih]

theorem countStage_noncandidate_loop (s : Stage) (hs : s ≠ Stage.candidate) (env : Env) :
    ∀ (l : List String) (n c : Nat), countStage s (probeLoop env n c l).1 = 0 := by
  intro l
  induction l with
  | nil => intro n c; rfl
  | cons e rest ih =>
    intro n c
    have hs2 : ¬ Stage.candidate = s := fun h => hs h.symm
    simp [probeLoop, countStage, ih, hs2]

theorem expectedResults_map_fst (env : Env) :
    ∀ (l : List String) (n : Nat), (expectedResults env n l).map Prod.fst = l := by
  intro l
  induction l with
  | nil => intro n; rfl
  | cons e rest ih => intro n; simp [expectedResults, ih]

/-- The run's trace when the info/catch-all gate blocks
(`not info_valid or is_catch_all`): only the info-phase events. -/
theorem trace_gate_blocked (env : Env) (perms : List String)
    (dm sd : String) (nc : Bool) (ce : Option String) (m : String) (rest : List String)
    (hmx : env.mx = some (m :: rest))
    (hgate : (!(motta_validate_info_address env dm sd nc ce).2.1
        || (motta_validate_info_address env dm sd nc ce).2.2) = true) :
    motta_validate_email_permutations env perms dm sd nc ce
      = (motta_validate_info_address env dm sd nc ce).1 := by
  simp only [motta_validate_email_permutations, hmx, hgate, if_true]

/-- The run's trace when the gate passes: the info-phase events, then
one probe per candidate in order, then the summary. -/
theorem trace_gate_passed (env : Env) (perms : List String)
    (dm sd : String) (nc : Bool) (ce : Option String) (m : String) (rest : List String)
    (hmx : env.mx = some (m :: rest))
    (h1 : (motta_validate_info_address env dm sd nc ce).2.1 = true)
    (h2 : (motta_validate_info_address env dm sd nc ce).2.2 = false) :
    motta_validate_email_permutations env perms dm sd nc ce
      = (motta_validate_info_address env dm sd nc ce).1
        ++ (probeLoop env (if nc then 0 else 2) 0 perms).1
        ++ [Event.summary (probeLoop env (if nc then 0 else 2) 0 perms).2 perms.length] := by
  simp [motta_validate_email_permutations, hmx, h1, h2]

/-! ### Claims about the scheduler -/

/-- C3: if the catch-all probe (SMTP call 1, against the synthetic
random address) accepts, the run probes zero candidates from the
supplied list and emits zero per-candidate results, regardless of the
list's contents; the outcome is reported by the distinct catch-all
alert, and no summary (the report ordinary all-rejected runs end with)
is emitted. -/
theorem C3_catch_all_aborts_run (env : Env) (perms : List String)
    (dm sd : String) (ce : Option String) (m : String) (rest : List String)
    (hmx : env.mx = some (m :: rest))
    (hca : env.verdict 1 (synthAddr env dm) = true) :
    countStage Stage.candidate
        (motta_validate_email_permutations env perms dm sd false ce) = 0
      ∧ candidateProbes (motta_validate_email_permutations env perms dm sd false ce) = []
      ∧ Event.catchAllAlert ∈ motta_validate_email_permutations env perms dm sd false ce
      ∧ ∀ v t, Event.summary v t ∉ motta_validate_email_permutations env perms dm sd false ce := by
  have hgate : (!(motta_validate_info_address env dm sd false ce).2.1
      || (motta_validate_info_address env dm sd false ce).2.2) = true := by
    rw [info_snd_eq, hca, Bool.or_true]
  rw [trace_gate_blocked env perms dm sd false ce m rest hmx hgate]
  refine ⟨countStage_candidate_info env dm sd false ce,
    candidateProbes_info env dm sd false ce, ?_, ?_⟩
  · rw [info_events_eq, hca]
    simp
  · intro v t
    rw [info_events_eq, hca]
    simp

/-- The environment of a run whose server rejects every RCPT TO: the
info-address probe and the catch-all probe both come back `false`. -/
def envAllReject : Env where
  mx := some ["mx.example.com"]
  verdict := fun _ _ => false
  randomTag := "abcdefghij"

/-- The environment of a run against a catch-all server: every RCPT TO
is accepted. -/
def envCatchAll : Env where
  mx := some ["mx.example.com"]
  verdict := fun _ _ => true
  randomTag := "abcdefghij"

/-- The environment of a run whose MX resolution raises. -/
def envNoMx : Env where
  mx := none
  verdict := fun _ _ => false
  randomTag := "abcdefghij"

/-- Witness for C3: a catch-all domain with one supplied candidate;
the candidate is never probed and the alert is emitted. -/
theorem C3_catch_all_aborts_run_witness :
    (envCatchAll.mx = some ("mx.example.com" :: [])
        ∧ envCatchAll.verdict 1 (synthAddr envCatchAll "example.com") = true)
      ∧ (countStage Stage.candidate
            (motta_validate_email_permutations envCatchAll ["alice@example.com"]
              "example.com" "sender@mottasec.com" false none) = 0
        ∧ candidateProbes
            (motta_validate_email_permutations envCatchAll ["alice@example.com"]
              "example.com" "sender@mottasec.com" false none) = []
        ∧ Event.catchAllAlert ∈
            motta_validate_email_permutations envCatchAll ["alice@example.com"]
              "example.com" "sender@mottasec.com" false none
        ∧ ∀ v t, Event.summary v t ∉
            motta_validate_email_permutations envCatchAll ["alice@example.com"]
              "example.com" "sender@mottasec.com" false none) :=
  ⟨⟨rfl, rfl⟩,
    C3_catch_all_aborts_run envCatchAll ["alice@example.com"] "example.com"
      "sender@mottasec.com" none "mx.example.com" [] rfl rfl⟩

/-- C4 counterexample: a run whose catch-all check returns `false` but
whose address-of-record check is rejected probes zero candidates even
though the supplied list is non-empty — the check gates the run
(line 198: `if not info_valid or is_catch_all: return`), contradicting
the claim that candidates are probed regardless of its outcome. -/
theorem C4_counterexample_info_rejection_blocks :
    (motta_validate_info_address envAllReject "example.com" "sender@mottasec.com"
        false none).2.2 = false
      ∧ (motta_validate_info_address envAllReject "example.com" "sender@mottasec.com"
          false none).2.1 = false
      ∧ countStage Stage.candidate
          (motta_validate_email_permutations envAllReject ["alice@example.com"]
            "example.com" "sender@mottasec.com" false none) = 0 := by
  decide

/-- C4 (amended): the address-of-record check gates the run.  For every
run whose catch-all check returns `false`: if the check reported valid
(`info_valid = true`, which also holds trivially under `no_check`), every
supplied candidate is probed, in order; if it reported invalid, the run
returns immediately and zero candidates are probed. -/
theorem C4_info_check_gates (env : Env) (perms : List String)
    (dm sd : String) (nc : Bool) (ce : Option String) (m : String) (rest : List String)
    (hmx : env.mx = some (m :: rest))
    (hca : (motta_validate_info_address env dm sd nc ce).2.2 = false) :
    ((motta_validate_info_address env dm sd nc ce).2.1 = true →
        candidateProbes (motta_validate_email_permutations env perms dm sd nc ce)
          = expectedResults env (if nc then 0 else 2) perms)
      ∧ ((motta_validate_info_address env dm sd nc ce).2.1 = false →
        candidateProbes (motta_validate_email_permutations env perms dm sd nc ce) = []) := by
  constructor
  · intro h1
    rw [trace_gate_passed env perms dm sd nc ce m rest hmx h1 hca,
      candidateProbes_append, candidateProbes_append,
      candidateProbes_info, candidateProbes_loop]
    simp [candidateProbes]
  · intro h1
    have hgate : (!(motta_validate_info_address env dm sd nc ce).2.1
        || (motta_validate_info_address env dm sd nc ce).2.2) = true := by
      rw [h1]
      simp
    rw [trace_gate_blocked env perms dm sd nc ce m rest hmx hgate,
      candidateProbes_info]

/-- Witness for C4 (amended) on the all-rejecting environment: the
catch-all check returns `false`, the info check is rejected, and zero
candidates are probed. -/
theorem C4_info_check_gates_witness :
    (envAllReject.mx = some ("mx.example.com" :: [])
        ∧ (motta_validate_info_address envAllReject "example.com" "sender@mottasec.com"
            false none).2.2 = false)
      ∧ (((motta_validate_info_address envAllReject "example.com" "sender@mottasec.com"
            false none).2.1 = true →
          candidateProbes
              (motta_validate_email_permutations envAllReject ["alice@example.com"]
                "example.com" "sender@mottasec.com" false none)
            = expectedResults envAllReject (if false then 0 else 2) ["alice@example.com"])
        ∧ ((motta_validate_info_address envAllReject "example.com" "sender@mottasec.com"
            false none).2.1 = false →
          candidateProbes
              (motta_validate_email_permutations envAllReject ["alice@example.com"]
                "example.com" "sender@mottasec.com" false none) = [])) :=
  ⟨⟨rfl, rfl⟩,
    C4_info_check_gates envAllReject ["alice@example.com"] "example.com"
      "sender@mottasec.com" false none "mx.example.com" [] rfl rfl⟩

/-- C5 counterexample: a run with `no_check = true` executes zero
catch-all probes yet probes a candidate — with `no_check` the code
returns `(True, False)` from `motta_validate_info_address` before the
synthetic random address is ever probed, contradicting the claim that
the catch-all verdict is computed by a synthetic probe on every run
including `no_check` runs. -/
theorem C5_counterexample_no_check_skips_catch_all :
    countStage Stage.catchAllCheck
        (motta_validate_email_permutations envAllReject ["alice@example.com"]
          "example.com" "sender@mottasec.com" true none) = 0
      ∧ countStage Stage.candidate
          (motta_validate_email_permutations envAllReject ["alice@example.com"]
            "example.com" "sender@mottasec.com" true none) = 1 := by
  decide

/-- C5 (amended): when `no_check` is false, the run executes exactly one
synthetic catch-all probe, and it happens before every candidate probe
(the trace splits into a pre-segment holding the one catch-all probe and
no candidate probe, and a post-segment holding no catch-all probe); when
`no_check` is true, no synthetic probe is executed at all and
`is_catch_all` defaults to `False`. -/
theorem C5_catch_all_probe_placement (env : Env) (perms : List String)
    (dm sd : String) (ce : Option String) (m : String) (rest : List String)
    (hmx : env.mx = some (m :: rest)) :
    (∃ pre post,
        motta_validate_email_permutations env perms dm sd false ce = pre ++ post
          ∧ countStage Stage.catchAllCheck pre = 1
          ∧ countStage Stage.candidate pre = 0
          ∧ countStage Stage.catchAllCheck post = 0)
      ∧ countStage Stage.catchAllCheck
          (motta_validate_email_permutations env perms dm sd true ce) = 0 := by
  constructor
  · cases hfst : (motta_validate_info_address env dm sd false ce).2.1 with
    | false =>
      have hgate : (!(motta_validate_info_address env dm sd false ce).2.1
          || (motta_validate_info_address env dm sd false ce).2.2) = true := by
        rw [hfst]
        simp
      exact ⟨(motta_validate_info_address env dm sd false ce).1, [],
        by rw [trace_gate_blocked env perms dm sd false ce m rest hmx hgate,
          List.append_nil],
        countStage_catchAll_info env dm sd ce,
        countStage_candidate_info env dm sd false ce, rfl⟩
    | true =>
      cases hsnd : (motta_validate_info_address env dm sd false ce).2.2 with
      | true =>
        have hgate : (!(motta_validate_info_address env dm sd false ce).2.1
            || (motta_validate_info_address env dm sd false ce).2.2) = true := by
          rw [hsnd]
          simp
        exact ⟨(motta_validate_info_address env dm sd false ce).1, [],
          by rw [trace_gate_blocked env perms dm sd false ce m rest hmx hgate,
            List.append_nil],
          countStage_catchAll_info env dm sd ce,
          countStage_candidate_info env dm sd false ce, rfl⟩
      | false =>
        refine ⟨(motta_validate_info_address env dm sd false ce).1,
          (probeLoop env (if false then 0 else 2) 0 perms).1
            ++ [Event.summary (probeLoop env (if false then 0 else 2) 0 perms).2
                  perms.length],
          ?_, countStage_catchAll_info env dm sd ce,
          countStage_candidate_info env dm sd false ce, ?_⟩
        · rw [trace_gate_passed env perms dm sd false ce m rest hmx hfst hsnd,
            List.append_assoc]
        · rw [countStage_append,
            countStage_noncandidate_loop Stage.catchAllCheck (by simp) env perms _ 0]
          simp [countStage]
  · have h1 : (motta_validate_info_address env dm sd true ce).2.1 = true := rfl
    have h2 : (motta_validate_info_address env dm sd true ce).2.2 = false := rfl
    rw [trace_gate_passed env perms dm sd true ce m rest hmx h1 h2,
      countStage_append, countStage_append,
      countStage_noncandidate_loop Stage.catchAllCheck (by simp) env perms _ 0]
    simp [countStage, motta_validate_info_address]

/-- Witness for C5 (amended) on the all-rejecting environment. -/
theorem C5_catch_all_probe_placement_witness :
    envAllReject.mx = some ("mx.example.com" :: [])
      ∧ ((∃ pre post,
          motta_validate_email_permutations envAllReject ["alice@example.com"]
              "example.com" "sender@mottasec.com" false none = pre ++ post
            ∧ countStage Stage.catchAllCheck pre = 1
            ∧ countStage Stage.candidate pre = 0
            ∧ countStage Stage.catchAllCheck post = 0)
        ∧ countStage Stage.catchAllCheck
            (motta_validate_email_permutations envAllReject ["alice@example.com"]
              "example.com" "sender@mottasec.com" true none) = 0) :=
  ⟨rfl,
    C5_catch_all_probe_placement envAllReject ["alice@example.com"] "example.com"
      "sender@mottasec.com" none "mx.example.com" [] rfl⟩

/-- C7: whenever a run reaches the probing phase (MX resolved and the
info/catch-all gate passed), the per-candidate results are exactly one
per supplied candidate, in input order, each carrying its own probe's
verdict — never reordered or dropped. -/
theorem C7_results_in_input_order (env : Env) (perms : List String)
    (dm sd : String) (nc : Bool) (ce : Option String) (m : String) (rest : List String)
    (hmx : env.mx = some (m :: rest))
    (h1 : (motta_validate_info_address env dm sd nc ce).2.1 = true)
    (h2 : (motta_validate_info_address env dm sd nc ce).2.2 = false) :
    candidateProbes (motta_validate_email_permutations env perms dm sd nc ce)
        = expectedResults env (if nc then 0 else 2) perms
      ∧ (candidateProbes (motta_validate_email_permutations env perms dm sd nc ce)).map
          Prod.fst = perms := by
  have key : candidateProbes (motta_validate_email_permutations env perms dm sd nc ce)
      = expectedResults env (if nc then 0 else 2) perms := by
    rw [trace_gate_passed env perms dm sd nc ce m rest hmx h1 h2,
      candidateProbes_append, candidateProbes_append,
      candidateProbes_info, candidateProbes_loop]
    simp [candidateProbes]
  exact ⟨key, by rw [key, expectedResults_map_fst]⟩

/-- Witness for C7: three candidates `[A, B, C]` under `no_check`; the
emitted results are `[result(A), result(B), result(C)]`. -/
theorem C7_results_in_input_order_witness :
    envAllReject.mx = some ("mx.example.com" :: [])
      ∧ candidateProbes
          (motta_validate_email_permutations envAllReject
            ["a@example.com", "b@example.com", "c@example.com"]
            "example.com" "sender@mottasec.com" true none)
        = expectedResults envAllReject (if true then 0 else 2)
            ["a@example.com", "b@example.com", "c@example.com"]
      ∧ (candidateProbes
          (motta_validate_email_permutations envAllReject
            ["a@example.com", "b@example.com", "c@example.com"]
            "example.com" "sender@mottasec.com" true none)).map Prod.fst
        = ["a@example.com", "b@example.com", "c@example.com"] :=
  ⟨rfl,
    (C7_results_in_input_order envAllReject
      ["a@example.com", "b@example.com", "c@example.com"] "example.com"
      "sender@mottasec.com" true none "mx.example.com" [] rfl rfl rfl).1,
    (C7_results_in_input_order envAllReject
      ["a@example.com", "b@example.com", "c@example.com"] "example.com"
      "sender@mottasec.com" true none "mx.example.com" [] rfl rfl rfl).2⟩

/-- C8: a run whose MX lookup raises (timeout, NXDOMAIN, SERVFAIL —
`mx = none`) or returns zero records (`mx = some []`) executes zero
SMTP probes and emits exactly the corresponding failure report; the
interpreter is a total function, so the run terminates normally without
propagating an exception. -/
theorem C8_mx_failure_short_circuits (env : Env) (perms : List String)
    (dm sd : String) (nc : Bool) (ce : Option String)
    (h : env.mx = none ∨ env.mx = some []) :
    probeCount (motta_validate_email_permutations env perms dm sd nc ce) = 0
      ∧ (motta_validate_email_permutations env perms dm sd nc ce = [Event.mxFailure]
        ∨ motta_validate_email_permutations env perms dm sd nc ce = [Event.noMxRecords]) := by
  rcases h with h | h
  · have e : motta_validate_email_permutations env perms dm sd nc ce = [Event.mxFailure] := by
      simp [motta_validate_email_permutations, h]
    exact ⟨by rw [e]; rfl, Or.inl e⟩
  · have e : motta_validate_email_permutations env perms dm sd nc ce = [Event.noMxRecords] := by
      simp [motta_validate_email_permutations, h]
    exact ⟨by rw [e]; rfl, Or.inr e⟩

/-- Witness for C8: a run whose MX resolution raises. -/
theorem C8_mx_failure_short_circuits_witness :
    (envNoMx.mx = none ∨ envNoMx.mx = some [])
      ∧ (probeCount
          (motta_validate_email_permutations envNoMx ["alice@example.com"]
            "example.com" "sender@mottasec.com" false none) = 0
        ∧ (motta_validate_email_permutations envNoMx ["alice@example.com"]
              "example.com" "sender@mottasec.com" false none = [Event.mxFailure]
          ∨ motta_validate_email_permutations envNoMx ["alice@example.com"]
              "example.com" "sender@mottasec.com" false none = [Event.noMxRecords])) :=
  ⟨Or.inl rfl,
    C8_mx_failure_short_circuits envNoMx ["alice@example.com"] "example.com"
      "sender@mottasec.com" false none (Or.inl rfl)⟩
